import Mathlib

/-!
# Verification of the autotask OpenAI task nodes

Shallow embedding of the six capability nodes of the repository
(text generation, image generation, image recognition, speech-to-text,
text-to-speech, video recognition).  Each Python `execute` method is
translated into a pure Lean function over an explicit environment `Env`
bundling the external collaborators (configuration resolver, filesystem,
remote API client, directory creation, file writing).  Every observable
external action is recorded in a trace of `Event`s, and the catch-all
`try/except` boundary of each node is modelled by an `Except String`
body whose error is mapped to the node's failure dictionary.
-/

namespace Autotask

/-- A Python value as it can appear in a node's input mapping:
the inputs are loosely typed (`Dict[str, Any]`), the nodes only ever
supply strings, integers and floats. Floats are modelled as rationals. -/
inductive Value where
  | str (s : String)
  | int (n : Int)
  | float (q : Rat)
deriving DecidableEq, Repr

/-- Python truthiness of a value (`if v:`): non-empty string,
non-zero number. -/
def Value.truthy : Value → Bool
  | .str s => !s.isEmpty
  | .int n => n ≠ 0
  | .float q => q ≠ 0

/-- Python `str(v)` as used inside f-string error messages. -/
def Value.pyStr : Value → String
  | .str s => s
  | .int n => toString n
  | .float q => toString q

/-- A value in a node's returned outcome dictionary: the nodes return
booleans (`success`), strings, and input values passed through. -/
inductive RVal where
  | bool (b : Bool)
  | val (v : Value)
deriving DecidableEq, Repr

/-- Shorthand for a string-valued outcome entry. -/
def rstr (s : String) : RVal := .val (.str s)

/-- First-match association-list lookup, the model of Python
`dict` access on the (insertion-ordered) dictionaries used here. -/
def assocFind {α : Type} : List (String × α) → String → Option α
  | [], _ => none
  | (k, v) :: rest, key => if k = key then some v else assocFind rest key

/-- A node's input mapping (`node_inputs`). -/
abbrev Inputs := List (String × Value)

/-- A node's returned outcome dictionary. -/
abbrev Outcome := List (String × RVal)

/-- `node_inputs[key]`: a missing key raises `KeyError`, whose
`str` is the repr of the key. -/
def getItem (ins : Inputs) (key : String) : Except String Value :=
  match assocFind ins key with
  | some v => .ok v
  | none => .error ("'" ++ key ++ "'")

/-- `node_inputs.get(key, default)`. -/
def getDefault (ins : Inputs) (key : String) (d : Value) : Value :=
  (assocFind ins key).getD d

/-- Coercion of a value to a string where Python would apply a string
operation (`startswith`, `os.path.abspath`, ...) and raise a
`TypeError`/`AttributeError` on non-string arguments. -/
def asPyString : Value → Except String String
  | .str s => .ok s
  | .int _ => .error "expected str, bytes or os.PathLike object, not int"
  | .float _ => .error "expected str, bytes or os.PathLike object, not float"

/-- Typed connection parameters of a model configuration
(`get_typed_parameters()` result). -/
structure TypedParams where
  api_key : String
  base_url : String
deriving DecidableEq, Repr

/-- A resolved model configuration (`LLMConfig`): a model name and the
typed parameters, which may be absent (`get_typed_parameters` falsy). -/
structure LLMConfig where
  llm_name : String
  typed_parameters : Option TypedParams
deriving DecidableEq, Repr

/-- A content block of a multimodal chat message. -/
inductive ContentBlock where
  | text (v : Value)
  | image_url (url : String)
  | video (urls : List String)
deriving DecidableEq, Repr

/-- The content of a chat message: either a plain value (text nodes) or
a list of content blocks (recognition nodes). -/
inductive MsgContent where
  | val (v : Value)
  | blocks (bs : List ContentBlock)
deriving DecidableEq, Repr

/-- One chat message of an outbound chat-completion request. -/
structure ChatMessage where
  role : String
  content : MsgContent
deriving DecidableEq, Repr

/-- An outbound `chat.completions.create` request. -/
structure ChatRequest where
  model : String
  messages : List ChatMessage
  max_tokens : Option Value := none
  temperature : Option Value := none
deriving DecidableEq, Repr

/-- An outbound `images.generate` request. -/
structure ImagesRequest where
  model : String
  prompt : Value
  size : Value
  quality : Value
  style : Value
  n : Nat
deriving DecidableEq, Repr

/-- An outbound `audio.transcriptions.create` request; `file` carries
the bytes of the opened audio file, `language`/`prompt` only when the
corresponding input was truthy. -/
structure TranscriptionRequest where
  model : String
  file : List Nat
  language : Option Value := none
  prompt : Option Value := none
deriving DecidableEq, Repr

/-- An outbound `audio.speech.create` request. -/
structure SpeechRequest where
  model : String
  voice : Value
  input : Value
deriving DecidableEq, Repr

/-- An observable external action performed during one `execute` call,
in execution order. -/
inductive Event where
  | resolve (id : Value)
  | chatCall (req : ChatRequest)
  | imagesCall (req : ImagesRequest)
  | transcribeCall (req : TranscriptionRequest)
  | speechCall (req : SpeechRequest)
  | httpGet (url : String)
  | mkdirs (dir : String)
  | write (path : String)
deriving DecidableEq, Repr

/-- Whether an event is a remote API client call. -/
def Event.isApiCall : Event → Bool
  | .chatCall _ => true
  | .imagesCall _ => true
  | .transcribeCall _ => true
  | .speechCall _ => true
  | .httpGet _ => true
  | _ => false

/-- The environment of external collaborators a node interacts with.
Fallible collaborators return `Except String`, the error being the
`str` of the Python exception they would raise. -/
structure Env where
  /-- `get_llm_config_by_id`: the configuration resolver. -/
  get_llm_config_by_id : Value → Option LLMConfig
  /-- `open(path, "rb").read()`: full binary read of a local file. -/
  openRead : Value → Except String (List Nat)
  /-- `client.chat.completions.create`: returns the message contents of
  the completion choices. -/
  chatCreate : ChatRequest → Except String (List String)
  /-- `client.images.generate`: returns the URLs of the response data. -/
  imagesGenerate : ImagesRequest → Except String (List String)
  /-- `requests.get(url)` plus `raise_for_status()`: downloaded bytes. -/
  httpGetBytes : String → Except String (List Nat)
  /-- `client.audio.transcriptions.create`: the transcription text. -/
  transcribe : TranscriptionRequest → Except String String
  /-- `client.audio.speech.create`: the binary audio response. -/
  speechCreate : SpeechRequest → Except String (List Nat)
  /-- `os.makedirs(dir, exist_ok=True)`. -/
  mkdirs : String → Except String Unit
  /-- Binary write of the given bytes to a local file path. -/
  writeFile : String → List Nat → Except String Unit
  /-- `os.path.dirname(os.path.abspath(path))`. -/
  dirnameAbs : String → String

/-- The base64 alphabet (RFC 4648, as used by Python `base64.b64encode`). -/
def base64Alphabet : List Char :=
  [ 'A','B','C','D','E','F','G','H','I','J','K','L','M','N','O','P',
    'Q','R','S','T','U','V','W','X','Y','Z','a','b','c','d','e','f',
    'g','h','i','j','k','l','m','n','o','p','q','r','s','t','u','v',
    'w','x','y','z','0','1','2','3','4','5','6','7','8','9','+','/' ]

/-- The base64 digit for a 6-bit group. -/
def base64Digit (n : Nat) : Char := base64Alphabet.getD n 'A'

/-- Standard base64 encoding with padding of a byte list, the model of
Python `base64.b64encode(...).decode('utf-8')`. -/
def base64Encode : List Nat → String
  | [] => ""
  | [a] =>
      String.mk [base64Digit (a / 4), base64Digit (a % 4 * 16), '=', '=']
  | [a, b] =>
      String.mk [base64Digit (a / 4), base64Digit (a % 4 * 16 + b / 16),
                 base64Digit (b % 16 * 4), '=']
  | a :: b :: c :: rest =>
      String.mk [base64Digit (a / 4), base64Digit (a % 4 * 16 + b / 16),
                 base64Digit (b % 16 * 4 + c / 64), base64Digit (c % 64)]
        ++ base64Encode rest

/-- `p` is a prefix of `s`, on character lists. -/
def startsWithChars : List Char → List Char → Bool
  | [], _ => true
  | _ :: _, [] => false
  | a :: as, b :: bs => a == b && startsWithChars as bs

/-- Python `s.startswith(p)`: character-wise, case-sensitive prefix test. -/
def strStartsWith (s p : String) : Bool := startsWithChars p.data s.data

/-- `path.startswith(('http://', 'https://'))`: the (case-sensitive)
remote-URL test shared by the recognition nodes. -/
def isHttpUrl (s : String) : Bool :=
  strStartsWith s "http://" || strStartsWith s "https://"

/-! ## Text generation node (`text_generation.py`) -/

/-- Body of `TextGenerationNode.execute` inside its `try` block: each
step either continues or raises the `str` of the Python exception.  The
second component is the trace of external actions performed so far. -/
def textGenRun (env : Env) (ins : Inputs) : Except String Outcome × List Event :=
  match getItem ins "prompt" with
  | .error e => (.error e, [])
  | .ok prompt =>
    let system_prompt :=
      getDefault ins "system_prompt" (.str "You are a helpful and creative assistant.")
    let max_tokens := getDefault ins "max_tokens" (.int 1000)
    let temperature := getDefault ins "temperature" (.float (7 / 10))
    match getItem ins "llm_config_id" with
    | .error e => (.error e, [])
    | .ok llm_config_id =>
      match env.get_llm_config_by_id llm_config_id with
      | none =>
          (.error ("LLM configuration not found for ID: " ++ llm_config_id.pyStr),
           [.resolve llm_config_id])
      | some llm_config =>
        match llm_config.typed_parameters with
        | none =>
            (.error "Failed to get typed parameters from LLM configuration",
             [.resolve llm_config_id])
        | some _params =>
          let req : ChatRequest :=
            { model := llm_config.llm_name,
              messages := [ { role := "system", content := .val system_prompt },
                            { role := "user", content := .val prompt } ],
              max_tokens := some max_tokens,
              temperature := some temperature }
          match env.chatCreate req with
          | .error e => (.error e, [.resolve llm_config_id, .chatCall req])
          | .ok [] =>
              (.error "list index out of range",
               [.resolve llm_config_id, .chatCall req])
          | .ok (response :: _) =>
              (.ok [("success", .bool true), ("generated_text", rstr response)],
               [.resolve llm_config_id, .chatCall req])

/-- `TextGenerationNode.execute`: the catch-all boundary maps any raised
exception to the failure dictionary with the node's message prefix. -/
def TextGenerationNode.execute (env : Env) (ins : Inputs) : Outcome × List Event :=
  match textGenRun env ins with
  | (.ok out, evs) => (out, evs)
  | (.error e, evs) =>
      ([("success", .bool false),
        ("error_message", rstr ("Text generation failed: " ++ e))], evs)

/-! ## Image generation node (`image_generation.py`) -/

/-- Body of `ImageGenerationNode.execute` inside its `try` block. -/
def imageGenRun (env : Env) (ins : Inputs) : Except String Outcome × List Event :=
  match getItem ins "prompt" with
  | .error e => (.error e, [])
  | .ok prompt =>
    match getItem ins "size" with
    | .error e => (.error e, [])
    | .ok size =>
      let quality := getDefault ins "quality" (.str "standard")
      let style := getDefault ins "style" (.str "vivid")
      match getItem ins "output_file" with
      | .error e => (.error e, [])
      | .ok output_file =>
        match getItem ins "llm_config_id" with
        | .error e => (.error e, [])
        | .ok llm_config_id =>
          match env.get_llm_config_by_id llm_config_id with
          | none =>
              (.error ("LLM configuration not found for ID: " ++ llm_config_id.pyStr),
               [.resolve llm_config_id])
          | some llm_config =>
            match llm_config.typed_parameters with
            | none =>
                (.error "Failed to get typed parameters from LLM configuration",
                 [.resolve llm_config_id])
            | some _params =>
              match asPyString output_file with
              | .error e => (.error e, [.resolve llm_config_id])
              | .ok outPath =>
                let dir := env.dirnameAbs outPath
                match env.mkdirs dir with
                | .error e => (.error e, [.resolve llm_config_id, .mkdirs dir])
                | .ok _ =>
                  let req : ImagesRequest :=
                    { model := llm_config.llm_name, prompt := prompt, size := size,
                      quality := quality, style := style, n := 1 }
                  match env.imagesGenerate req with
                  | .error e =>
                      (.error e, [.resolve llm_config_id, .mkdirs dir, .imagesCall req])
                  | .ok [] =>
                      (.error "list index out of range",
                       [.resolve llm_config_id, .mkdirs dir, .imagesCall req])
                  | .ok (image_url :: _) =>
                      match env.httpGetBytes image_url with
                      | .error e =>
                          (.error e,
                           [.resolve llm_config_id, .mkdirs dir, .imagesCall req,
                            .httpGet image_url])
                      | .ok bytes =>
                        match env.writeFile outPath bytes with
                        | .error e =>
                            (.error e,
                             [.resolve llm_config_id, .mkdirs dir, .imagesCall req,
                              .httpGet image_url, .write outPath])
                        | .ok _ =>
                            (.ok [("success", .bool true), ("image_path", .val output_file)],
                             [.resolve llm_config_id, .mkdirs dir, .imagesCall req,
                              .httpGet image_url, .write outPath])

/-- `ImageGenerationNode.execute`. -/
def ImageGenerationNode.execute (env : Env) (ins : Inputs) : Outcome × List Event :=
  match imageGenRun env ins with
  | (.ok out, evs) => (out, evs)
  | (.error e, evs) =>
      ([("success", .bool false),
        ("error_message", rstr ("Image generation failed: " ++ e))], evs)

/-! ## Image recognition node (`image_recognition.py`) -/

/-- `ImageRecognitionNode._encode_image_to_base64`: read the file fully
and base64-encode its bytes. -/
def ImageRecognitionNode._encode_image_to_base64 (env : Env) (image_path : String) :
    Except String String :=
  match env.openRead (.str image_path) with
  | .error e => .error e
  | .ok bytes => .ok (base64Encode bytes)

/-- `ImageRecognitionNode._get_image_url`: pass remote URLs through
unchanged, otherwise wrap the file's bytes as a jpeg data URL. -/
def ImageRecognitionNode._get_image_url (env : Env) (image_path : Value) :
    Except String String :=
  match asPyString image_path with
  | .error e => .error e
  | .ok s =>
    if isHttpUrl s then .ok s
    else
      match ImageRecognitionNode._encode_image_to_base64 env s with
      | .error e => .error e
      | .ok b => .ok ("data:image/jpeg;base64," ++ b)

/-- Body of `ImageRecognitionNode.execute` inside its `try` block. -/
def imageRecRun (env : Env) (ins : Inputs) : Except String Outcome × List Event :=
  match getItem ins "image_path" with
  | .error e => (.error e, [])
  | .ok image_path =>
    match getItem ins "prompt" with
    | .error e => (.error e, [])
    | .ok prompt =>
      match getItem ins "llm_config_id" with
      | .error e => (.error e, [])
      | .ok llm_config_id =>
        match env.get_llm_config_by_id llm_config_id with
        | none =>
            (.error ("LLM configuration not found for ID: " ++ llm_config_id.pyStr),
             [.resolve llm_config_id])
        | some llm_config =>
          match llm_config.typed_parameters with
          | none =>
              (.error "Failed to get typed parameters from LLM configuration",
               [.resolve llm_config_id])
          | some _params =>
            match ImageRecognitionNode._get_image_url env image_path with
            | .error e => (.error e, [.resolve llm_config_id])
            | .ok image_url =>
              let req : ChatRequest :=
                { model := llm_config.llm_name,
                  messages := [ { role := "user",
                                  content := .blocks [ .text prompt,
                                                       .image_url image_url ] } ] }
              match env.chatCreate req with
              | .error e => (.error e, [.resolve llm_config_id, .chatCall req])
              | .ok [] =>
                  (.error "list index out of range",
                   [.resolve llm_config_id, .chatCall req])
              | .ok (response :: _) =>
                  (.ok [("success", .bool true), ("description", rstr response)],
                   [.resolve llm_config_id, .chatCall req])

/-- `ImageRecognitionNode.execute`. -/
def ImageRecognitionNode.execute (env : Env) (ins : Inputs) : Outcome × List Event :=
  match imageRecRun env ins with
  | (.ok out, evs) => (out, evs)
  | (.error e, evs) =>
      ([("success", .bool false),
        ("error_message", rstr ("Image recognition failed: " ++ e))], evs)

/-! ## Speech-to-text node (`speech_to_text.py`) -/

/-- Body of `SpeechToTextNode.execute` inside its `try` block.  Note the
audio file is opened while building the request parameters, before the
transcription call is issued. -/
def speechToTextRun (env : Env) (ins : Inputs) : Except String Outcome × List Event :=
  match getItem ins "audio_file" with
  | .error e => (.error e, [])
  | .ok audio_file =>
    let language := getDefault ins "language" (.str "")
    let prompt := getDefault ins "prompt" (.str "")
    match getItem ins "llm_config_id" with
    | .error e => (.error e, [])
    | .ok llm_config_id =>
      match env.get_llm_config_by_id llm_config_id with
      | none =>
          (.error ("LLM configuration not found for ID: " ++ llm_config_id.pyStr),
           [.resolve llm_config_id])
      | some llm_config =>
        match llm_config.typed_parameters with
        | none =>
            (.error "Failed to get typed parameters from LLM configuration",
             [.resolve llm_config_id])
        | some _params =>
          match env.openRead audio_file with
          | .error e => (.error e, [.resolve llm_config_id])
          | .ok fileBytes =>
            let req : TranscriptionRequest :=
              { model := llm_config.llm_name,
                file := fileBytes,
                language := if language.truthy then some language else none,
                prompt := if prompt.truthy then some prompt else none }
            match env.transcribe req with
            | .error e => (.error e, [.resolve llm_config_id, .transcribeCall req])
            | .ok text =>
                (.ok [("success", .bool true), ("transcription", rstr text)],
                 [.resolve llm_config_id, .transcribeCall req])

/-- `SpeechToTextNode.execute`. -/
def SpeechToTextNode.execute (env : Env) (ins : Inputs) : Outcome × List Event :=
  match speechToTextRun env ins with
  | (.ok out, evs) => (out, evs)
  | (.error e, evs) =>
      ([("success", .bool false),
        ("error_message", rstr ("Speech to text conversion failed: " ++ e))], evs)

/-! ## Text-to-speech node (`text_to_speech.py`) -/

/-- Body of `TextToSpeechNode.execute` inside its `try` block. -/
def textToSpeechRun (env : Env) (ins : Inputs) : Except String Outcome × List Event :=
  match getItem ins "text" with
  | .error e => (.error e, [])
  | .ok text =>
    match getItem ins "voice" with
    | .error e => (.error e, [])
    | .ok voice =>
      match getItem ins "output_file" with
      | .error e => (.error e, [])
      | .ok output_file =>
        match getItem ins "llm_config_id" with
        | .error e => (.error e, [])
        | .ok llm_config_id =>
          match env.get_llm_config_by_id llm_config_id with
          | none =>
              (.error ("LLM configuration not found for ID: " ++ llm_config_id.pyStr),
               [.resolve llm_config_id])
          | some llm_config =>
            match llm_config.typed_parameters with
            | none =>
                (.error "Failed to get typed parameters from LLM configuration",
                 [.resolve llm_config_id])
            | some _params =>
              match asPyString output_file with
              | .error e => (.error e, [.resolve llm_config_id])
              | .ok outPath =>
                let dir := env.dirnameAbs outPath
                match env.mkdirs dir with
                | .error e => (.error e, [.resolve llm_config_id, .mkdirs dir])
                | .ok _ =>
                  let req : SpeechRequest :=
                    { model := llm_config.llm_name, voice := voice, input := text }
                  match env.speechCreate req with
                  | .error e =>
                      (.error e, [.resolve llm_config_id, .mkdirs dir, .speechCall req])
                  | .ok audioBytes =>
                    match env.writeFile outPath audioBytes with
                    | .error e =>
                        (.error e,
                         [.resolve llm_config_id, .mkdirs dir, .speechCall req,
                          .write outPath])
                    | .ok _ =>
                        (.ok [("success", .bool true), ("audio_path", .val output_file)],
                         [.resolve llm_config_id, .mkdirs dir, .speechCall req,
                          .write outPath])

/-- `TextToSpeechNode.execute`. -/
def TextToSpeechNode.execute (env : Env) (ins : Inputs) : Outcome × List Event :=
  match textToSpeechRun env ins with
  | (.ok out, evs) => (out, evs)
  | (.error e, evs) =>
      ([("success", .bool false),
        ("error_message", rstr ("Text to speech conversion failed: " ++ e))], evs)

/-! ## Video recognition node (`video_recognition.py`) -/

/-- The loop of `_get_valid_image_paths` over the given frame indices:
keep the truthy values of the present `img<i>` keys, in index order. -/
def VideoRecognitionNode.collectFrames (ins : Inputs) : List Nat → List Value
  | [] => []
  | i :: rest =>
    match assocFind ins ("img" ++ toString i) with
    | some v =>
        if v.truthy then v :: VideoRecognitionNode.collectFrames ins rest
        else VideoRecognitionNode.collectFrames ins rest
    | none => VideoRecognitionNode.collectFrames ins rest

/-- `VideoRecognitionNode._get_valid_image_paths`: the non-empty frame
references `img1..img8` in ascending positional order. -/
def VideoRecognitionNode._get_valid_image_paths (ins : Inputs) : List Value :=
  VideoRecognitionNode.collectFrames ins [1, 2, 3, 4, 5, 6, 7, 8]

/-- `VideoRecognitionNode._encode_image_to_base64`. -/
def VideoRecognitionNode._encode_image_to_base64 (env : Env) (image_path : String) :
    Except String String :=
  match env.openRead (.str image_path) with
  | .error e => .error e
  | .ok bytes => .ok (base64Encode bytes)

/-- `VideoRecognitionNode._get_image_url`: identical to the image
recognition node's resolution rule. -/
def VideoRecognitionNode._get_image_url (env : Env) (image_path : Value) :
    Except String String :=
  match asPyString image_path with
  | .error e => .error e
  | .ok s =>
    if isHttpUrl s then .ok s
    else
      match VideoRecognitionNode._encode_image_to_base64 env s with
      | .error e => .error e
      | .ok b => .ok ("data:image/jpeg;base64," ++ b)

/-- The `for image_path in image_paths` loop of the video node: resolve
every frame reference in order, propagating the first failure. -/
def VideoRecognitionNode.resolveFrameUrls (env : Env) :
    List Value → Except String (List String)
  | [] => .ok []
  | p :: rest =>
    match VideoRecognitionNode._get_image_url env p with
    | .error e => .error e
    | .ok u =>
      match VideoRecognitionNode.resolveFrameUrls env rest with
      | .error e => .error e
      | .ok us => .ok (u :: us)

/-- Body of `VideoRecognitionNode.execute` inside its `try` block: the
frame emptiness check comes first, before any input read or resolution. -/
def videoRecRun (env : Env) (ins : Inputs) : Except String Outcome × List Event :=
  let image_paths := VideoRecognitionNode._get_valid_image_paths ins
  if image_paths.isEmpty then
    (.error "At least one image path must be provided", [])
  else
    match getItem ins "prompt" with
    | .error e => (.error e, [])
    | .ok prompt =>
      match getItem ins "llm_config_id" with
      | .error e => (.error e, [])
      | .ok llm_config_id =>
        match env.get_llm_config_by_id llm_config_id with
        | none =>
            (.error ("LLM configuration not found for ID: " ++ llm_config_id.pyStr),
             [.resolve llm_config_id])
        | some llm_config =>
          match llm_config.typed_parameters with
          | none =>
              (.error "Failed to get typed parameters from LLM configuration",
               [.resolve llm_config_id])
          | some _params =>
            match VideoRecognitionNode.resolveFrameUrls env image_paths with
            | .error e => (.error e, [.resolve llm_config_id])
            | .ok image_urls =>
              let req : ChatRequest :=
                { model := llm_config.llm_name,
                  messages := [ { role := "user",
                                  content := .blocks [ .video image_urls,
                                                       .text prompt ] } ] }
              match env.chatCreate req with
              | .error e => (.error e, [.resolve llm_config_id, .chatCall req])
              | .ok [] =>
                  (.error "list index out of range",
                   [.resolve llm_config_id, .chatCall req])
              | .ok (response :: _) =>
                  (.ok [("success", .bool true), ("description", rstr response),
                        ("error_message", rstr "")],
                   [.resolve llm_config_id, .chatCall req])

/-- `VideoRecognitionNode.execute`: note the failure dictionary also
carries an empty `description`. -/
def VideoRecognitionNode.execute (env : Env) (ins : Inputs) : Outcome × List Event :=
  match videoRecRun env ins with
  | (.ok out, evs) => (out, evs)
  | (.error e, evs) =>
      ([("success", .bool false), ("description", rstr ""),
        ("error_message", rstr ("Video recognition failed: " ++ e))], evs)

/-! ## Inversion and shape lemmas -/

/-- Successful `node_inputs[key]` access returns exactly the stored value. -/
theorem getItem_eq_ok (ins : Inputs) (k : String) (v : Value) :
    getItem ins k = .ok v ↔ assocFind ins k = some v := by
  unfold getItem
  split <;> simp_all

/-- `asPyString` succeeds exactly on string values. -/
theorem asPyString_eq_ok (v : Value) (s : String) :
    asPyString v = .ok s ↔ v = .str s := by
  cases v <;> simp [asPyString]

/-- A successful text generation body returns the success dictionary
with the completion text. -/
theorem textGenRun_ok (env : Env) (ins : Inputs) (out : Outcome) (evs : List Event)
    (h : textGenRun env ins = (.ok out, evs)) :
    ∃ t, out = [("success", RVal.bool true), ("generated_text", rstr t)] := by
  unfold textGenRun at h
  repeat' first | split at h | simp only [] at h
  all_goals simp_all
  all_goals exact ⟨_, h.1.symm⟩

/-- A successful image generation body returns the caller-supplied
output path and performs resolve, directory creation, generation,
download and write, in that order. -/
theorem imageGenRun_ok (env : Env) (ins : Inputs) (out : Outcome) (evs : List Event)
    (h : imageGenRun env ins = (.ok out, evs)) :
    ∃ id s req url, assocFind ins "output_file" = some (Value.str s) ∧
      out = [("success", RVal.bool true), ("image_path", rstr s)] ∧
      evs = [Event.resolve id, Event.mkdirs (env.dirnameAbs s), Event.imagesCall req,
             Event.httpGet url, Event.write s] := by
  unfold imageGenRun at h
  repeat' first | split at h | simp only [] at h
  all_goals simp_all [getItem_eq_ok, asPyString_eq_ok]
  all_goals exact ⟨h.1.symm, _, _, _, h.2.symm⟩

/-- A successful image recognition body returns the success dictionary
with the completion text. -/
theorem imageRecRun_ok (env : Env) (ins : Inputs) (out : Outcome) (evs : List Event)
    (h : imageRecRun env ins = (.ok out, evs)) :
    ∃ t, out = [("success", RVal.bool true), ("description", rstr t)] := by
  unfold imageRecRun at h
  repeat' first | split at h | simp only [] at h
  all_goals simp_all
  all_goals exact ⟨_, h.1.symm⟩

/-- A successful speech-to-text body returns the success dictionary
with the transcription text. -/
theorem speechToTextRun_ok (env : Env) (ins : Inputs) (out : Outcome) (evs : List Event)
    (h : speechToTextRun env ins = (.ok out, evs)) :
    ∃ t, out = [("success", RVal.bool true), ("transcription", rstr t)] := by
  unfold speechToTextRun at h
  repeat' first | split at h | simp only [] at h
  all_goals simp_all
  all_goals exact ⟨_, h.1.symm⟩

/-- A successful text-to-speech body returns the caller-supplied output
path and performs resolve, directory creation, synthesis and write, in
that order. -/
theorem textToSpeechRun_ok (env : Env) (ins : Inputs) (out : Outcome) (evs : List Event)
    (h : textToSpeechRun env ins = (.ok out, evs)) :
    ∃ id s req, assocFind ins "output_file" = some (Value.str s) ∧
      out = [("success", RVal.bool true), ("audio_path", rstr s)] ∧
      evs = [Event.resolve id, Event.mkdirs (env.dirnameAbs s), Event.speechCall req,
             Event.write s] := by
  unfold textToSpeechRun at h
  repeat' first | split at h | simp only [] at h
  all_goals simp_all [getItem_eq_ok, asPyString_eq_ok]
  all_goals exact ⟨h.1.symm, _, _, h.2.symm⟩

/-- A successful video recognition body returns the success dictionary
whose description is the first completion choice of the single chat
call it issued, with an empty `error_message`. -/
theorem videoRecRun_ok (env : Env) (ins : Inputs) (out : Outcome) (evs : List Event)
    (h : videoRecRun env ins = (.ok out, evs)) :
    ∃ t tl req id,
      out = [("success", RVal.bool true), ("description", rstr t),
             ("error_message", rstr "")] ∧
      evs = [Event.resolve id, Event.chatCall req] ∧
      env.chatCreate req = .ok (t :: tl) := by
  unfold videoRecRun at h
  repeat' first | split at h | simp only [] at h
  all_goals simp_all
  all_goals exact ⟨_, h.1.symm, _, _, ⟨_, h.2.symm⟩, by assumption⟩

/-! ## The catch-all boundary -/

/-- The uniform outcome shape guaranteed by a node's `try/except`
boundary: either a success outcome, or a failure outcome whose
`error_message` begins with the capability-specific message start `p`. -/
def okOrFailsWith (p : String) (out : Outcome) : Prop :=
  assocFind out "success" = some (RVal.bool true) ∨
    (assocFind out "success" = some (RVal.bool false) ∧
     ∃ rest, assocFind out "error_message" = some (rstr (p ++ rest)))

/-- A string extended on the right stays non-empty when it starts
non-empty. -/
theorem appendNonempty (p e : String) (hp : 0 < p.length) : p ++ e ≠ "" := by
  intro h
  have h2 := congrArg String.length h
  rw [String.length_append] at h2
  simp at h2
  omega

/-- Text generation: every outcome is a success or a prefixed failure. -/
theorem textGen_boundary (env : Env) (ins : Inputs) :
    okOrFailsWith "Text generation failed: " (TextGenerationNode.execute env ins).1 := by
  unfold TextGenerationNode.execute
  rcases h : textGenRun env ins with ⟨r, evs⟩
  cases r with
  | ok out =>
      obtain ⟨t, rfl⟩ := textGenRun_ok env ins out evs h
      exact Or.inl (by simp [assocFind])
  | error e =>
      exact Or.inr ⟨by simp [assocFind], e, by simp [assocFind]⟩

/-- Image generation: every outcome is a success or a prefixed failure. -/
theorem imageGen_boundary (env : Env) (ins : Inputs) :
    okOrFailsWith "Image generation failed: " (ImageGenerationNode.execute env ins).1 := by
  unfold ImageGenerationNode.execute
  rcases h : imageGenRun env ins with ⟨r, evs⟩
  cases r with
  | ok out =>
      obtain ⟨id, s, req, url, _, rfl, _⟩ := imageGenRun_ok env ins out evs h
      exact Or.inl (by simp [assocFind])
  | error e =>
      exact Or.inr ⟨by simp [assocFind], e, by simp [assocFind]⟩

/-- Image recognition: every outcome is a success or a prefixed failure. -/
theorem imageRec_boundary (env : Env) (ins : Inputs) :
    okOrFailsWith "Image recognition failed: " (ImageRecognitionNode.execute env ins).1 := by
  unfold ImageRecognitionNode.execute
  rcases h : imageRecRun env ins with ⟨r, evs⟩
  cases r with
  | ok out =>
      obtain ⟨t, rfl⟩ := imageRecRun_ok env ins out evs h
      exact Or.inl (by simp [assocFind])
  | error e =>
      exact Or.inr ⟨by simp [assocFind], e, by simp [assocFind]⟩

/-- Speech-to-text: every outcome is a success or a prefixed failure. -/
theorem speechToText_boundary (env : Env) (ins : Inputs) :
    okOrFailsWith "Speech to text conversion failed: "
      (SpeechToTextNode.execute env ins).1 := by
  unfold SpeechToTextNode.execute
  rcases h : speechToTextRun env ins with ⟨r, evs⟩
  cases r with
  | ok out =>
      obtain ⟨t, rfl⟩ := speechToTextRun_ok env ins out evs h
      exact Or.inl (by simp [assocFind])
  | error e =>
      exact Or.inr ⟨by simp [assocFind], e, by simp [assocFind]⟩

/-- Text-to-speech: every outcome is a success or a prefixed failure. -/
theorem textToSpeech_boundary (env : Env) (ins : Inputs) :
    okOrFailsWith "Text to speech conversion failed: "
      (TextToSpeechNode.execute env ins).1 := by
  unfold TextToSpeechNode.execute
  rcases h : textToSpeechRun env ins with ⟨r, evs⟩
  cases r with
  | ok out =>
      obtain ⟨id, s, req, _, rfl, _⟩ := textToSpeechRun_ok env ins out evs h
      exact Or.inl (by simp [assocFind])
  | error e =>
      exact Or.inr ⟨by simp [assocFind], e, by simp [assocFind]⟩

/-- Video recognition: every outcome is a success or a prefixed failure. -/
theorem videoRec_boundary (env : Env) (ins : Inputs) :
    okOrFailsWith "Video recognition failed: " (VideoRecognitionNode.execute env ins).1 := by
  unfold VideoRecognitionNode.execute
  rcases h : videoRecRun env ins with ⟨r, evs⟩
  cases r with
  | ok out =>
      obtain ⟨t, tl, req, id, rfl, _, _⟩ := videoRecRun_ok env ins out evs h
      exact Or.inl (by simp [assocFind])
  | error e =>
      exact Or.inr ⟨by simp [assocFind], e, by simp [assocFind]⟩

/-- When the audio file cannot be opened, the speech-to-text body always
raises (it never reaches a success outcome). -/
theorem speechRun_openFailsRaises (env : Env) (ins : Inputs) (audio : Value) (msg : String)
    (ha : assocFind ins "audio_file" = some audio)
    (hr : env.openRead audio = .error msg) :
    ∀ r evs, speechToTextRun env ins = (r, evs) → ∃ e, r = Except.error e := by
  intro r evs h
  unfold speechToTextRun at h
  repeat' first | split at h | simp only [] at h
  any_goals (injection h with h1 h2; exact ⟨_, h1.symm⟩)
  all_goals simp_all [getItem_eq_ok]

/-! ## Resolution failure -/

/-- A failure outcome with a non-empty message, and a trace containing
no remote API client call. -/
def failsNoApiCall (p : Outcome × List Event) : Prop :=
  assocFind p.1 "success" = some (RVal.bool false) ∧
  (∃ m, assocFind p.1 "error_message" = some (rstr m) ∧ m ≠ "") ∧
  ∀ ev ∈ p.2, ev.isApiCall = false

/-- Configuration resolution failed: the resolver knows no record for
the supplied id, or the record yields no typed parameters. -/
def resolutionFails (env : Env) (id : Value) : Prop :=
  env.get_llm_config_by_id id = none ∨
    ∃ c, env.get_llm_config_by_id id = some c ∧ c.typed_parameters = none

/-- A branch that reached typed parameters contradicts failed
resolution. -/
theorem resolvedNotFail {env : Env} {ins : Inputs} {id idv : Value} {cfg : LLMConfig}
    {p : TypedParams}
    (hid : assocFind ins "llm_config_id" = some id)
    (hfail : resolutionFails env id)
    (h1 : getItem ins "llm_config_id" = Except.ok idv)
    (h2 : env.get_llm_config_by_id idv = some cfg)
    (h3 : cfg.typed_parameters = some p) : False := by
  rw [getItem_eq_ok, hid] at h1
  injection h1 with h1
  subst h1
  rcases hfail with hf | ⟨c, hc, hn⟩
  · rw [h2] at hf
    exact Option.noConfusion hf
  · rw [h2] at hc
    injection hc with hc
    subst hc
    rw [h3] at hn
    exact Option.noConfusion hn

/-- Text generation body under failed resolution: raises, no API call. -/
theorem textGenRun_resolveFail (env : Env) (ins : Inputs) (id : Value)
    (hid : assocFind ins "llm_config_id" = some id) (hfail : resolutionFails env id) :
    ∀ r evs, textGenRun env ins = (r, evs) →
      (∃ e, r = Except.error e) ∧ ∀ ev ∈ evs, ev.isApiCall = false := by
  intro r evs h
  unfold textGenRun at h
  repeat' first | split at h | simp only [] at h
  all_goals injection h with h1 h2
  all_goals subst h2
  all_goals try (exfalso; apply resolvedNotFail hid hfail <;> assumption)
  all_goals exact ⟨⟨_, h1.symm⟩, by simp [Event.isApiCall]⟩

/-- Image generation body under failed resolution: raises, no API call. -/
theorem imageGenRun_resolveFail (env : Env) (ins : Inputs) (id : Value)
    (hid : assocFind ins "llm_config_id" = some id) (hfail : resolutionFails env id) :
    ∀ r evs, imageGenRun env ins = (r, evs) →
      (∃ e, r = Except.error e) ∧ ∀ ev ∈ evs, ev.isApiCall = false := by
  intro r evs h
  unfold imageGenRun at h
  repeat' first | split at h | simp only [] at h
  all_goals injection h with h1 h2
  all_goals subst h2
  all_goals try (exfalso; apply resolvedNotFail hid hfail <;> assumption)
  all_goals exact ⟨⟨_, h1.symm⟩, by simp [Event.isApiCall]⟩

/-- Image recognition body under failed resolution: raises, no API call. -/
theorem imageRecRun_resolveFail (env : Env) (ins : Inputs) (id : Value)
    (hid : assocFind ins "llm_config_id" = some id) (hfail : resolutionFails env id) :
    ∀ r evs, imageRecRun env ins = (r, evs) →
      (∃ e, r = Except.error e) ∧ ∀ ev ∈ evs, ev.isApiCall = false := by
  intro r evs h
  unfold imageRecRun at h
  repeat' first | split at h | simp only [] at h
  all_goals injection h with h1 h2
  all_goals subst h2
  all_goals try (exfalso; apply resolvedNotFail hid hfail <;> assumption)
  all_goals exact ⟨⟨_, h1.symm⟩, by simp [Event.isApiCall]⟩

/-- Speech-to-text body under failed resolution: raises, no API call. -/
theorem speechToTextRun_resolveFail (env : Env) (ins : Inputs) (id : Value)
    (hid : assocFind ins "llm_config_id" = some id) (hfail : resolutionFails env id) :
    ∀ r evs, speechToTextRun env ins = (r, evs) →
      (∃ e, r = Except.error e) ∧ ∀ ev ∈ evs, ev.isApiCall = false := by
  intro r evs h
  unfold speechToTextRun at h
  repeat' first | split at h | simp only [] at h
  all_goals injection h with h1 h2
  all_goals subst h2
  all_goals try (exfalso; apply resolvedNotFail hid hfail <;> assumption)
  all_goals exact ⟨⟨_, h1.symm⟩, by simp [Event.isApiCall]⟩

/-- Text-to-speech body under failed resolution: raises, no API call. -/
theorem textToSpeechRun_resolveFail (env : Env) (ins : Inputs) (id : Value)
    (hid : assocFind ins "llm_config_id" = some id) (hfail : resolutionFails env id) :
    ∀ r evs, textToSpeechRun env ins = (r, evs) →
      (∃ e, r = Except.error e) ∧ ∀ ev ∈ evs, ev.isApiCall = false := by
  intro r evs h
  unfold textToSpeechRun at h
  repeat' first | split at h | simp only [] at h
  all_goals injection h with h1 h2
  all_goals subst h2
  all_goals try (exfalso; apply resolvedNotFail hid hfail <;> assumption)
  all_goals exact ⟨⟨_, h1.symm⟩, by simp [Event.isApiCall]⟩

/-- Video recognition body under failed resolution: raises, no API call. -/
theorem videoRecRun_resolveFail (env : Env) (ins : Inputs) (id : Value)
    (hid : assocFind ins "llm_config_id" = some id) (hfail : resolutionFails env id) :
    ∀ r evs, videoRecRun env ins = (r, evs) →
      (∃ e, r = Except.error e) ∧ ∀ ev ∈ evs, ev.isApiCall = false := by
  intro r evs h
  unfold videoRecRun at h
  repeat' first | split at h | simp only [] at h
  all_goals injection h with h1 h2
  all_goals subst h2
  all_goals try (exfalso; apply resolvedNotFail hid hfail <;> assumption)
  all_goals exact ⟨⟨_, h1.symm⟩, by simp [Event.isApiCall]⟩

/-- Text generation under failed resolution. -/
theorem textGen_resolveFail (env : Env) (ins : Inputs) (id : Value)
    (hid : assocFind ins "llm_config_id" = some id) (hfail : resolutionFails env id) :
    failsNoApiCall (TextGenerationNode.execute env ins) := by
  unfold TextGenerationNode.execute
  rcases h : textGenRun env ins with ⟨r, evs⟩
  obtain ⟨⟨e, rfl⟩, hev⟩ := textGenRun_resolveFail env ins id hid hfail r evs h
  exact ⟨by simp [assocFind],
    ⟨"Text generation failed: " ++ e, by simp [assocFind],
     appendNonempty "Text generation failed: " e (by decide)⟩, hev⟩

/-- Image generation under failed resolution. -/
theorem imageGen_resolveFail (env : Env) (ins : Inputs) (id : Value)
    (hid : assocFind ins "llm_config_id" = some id) (hfail : resolutionFails env id) :
    failsNoApiCall (ImageGenerationNode.execute env ins) := by
  unfold ImageGenerationNode.execute
  rcases h : imageGenRun env ins with ⟨r, evs⟩
  obtain ⟨⟨e, rfl⟩, hev⟩ := imageGenRun_resolveFail env ins id hid hfail r evs h
  exact ⟨by simp [assocFind],
    ⟨"Image generation failed: " ++ e, by simp [assocFind],
     appendNonempty "Image generation failed: " e (by decide)⟩, hev⟩

/-- Image recognition under failed resolution. -/
theorem imageRec_resolveFail (env : Env) (ins : Inputs) (id : Value)
    (hid : assocFind ins "llm_config_id" = some id) (hfail : resolutionFails env id) :
    failsNoApiCall (ImageRecognitionNode.execute env ins) := by
  unfold ImageRecognitionNode.execute
  rcases h : imageRecRun env ins with ⟨r, evs⟩
  obtain ⟨⟨e, rfl⟩, hev⟩ := imageRecRun_resolveFail env ins id hid hfail r evs h
  exact ⟨by simp [assocFind],
    ⟨"Image recognition failed: " ++ e, by simp [assocFind],
     appendNonempty "Image recognition failed: " e (by decide)⟩, hev⟩

/-- Speech-to-text under failed resolution. -/
theorem speechToText_resolveFail (env : Env) (ins : Inputs) (id : Value)
    (hid : assocFind ins "llm_config_id" = some id) (hfail : resolutionFails env id) :
    failsNoApiCall (SpeechToTextNode.execute env ins) := by
  unfold SpeechToTextNode.execute
  rcases h : speechToTextRun env ins with ⟨r, evs⟩
  obtain ⟨⟨e, rfl⟩, hev⟩ := speechToTextRun_resolveFail env ins id hid hfail r evs h
  exact ⟨by simp [assocFind],
    ⟨"Speech to text conversion failed: " ++ e, by simp [assocFind],
     appendNonempty "Speech to text conversion failed: " e (by decide)⟩, hev⟩

/-- Text-to-speech under failed resolution. -/
theorem textToSpeech_resolveFail (env : Env) (ins : Inputs) (id : Value)
    (hid : assocFind ins "llm_config_id" = some id) (hfail : resolutionFails env id) :
    failsNoApiCall (TextToSpeechNode.execute env ins) := by
  unfold TextToSpeechNode.execute
  rcases h : textToSpeechRun env ins with ⟨r, evs⟩
  obtain ⟨⟨e, rfl⟩, hev⟩ := textToSpeechRun_resolveFail env ins id hid hfail r evs h
  exact ⟨by simp [assocFind],
    ⟨"Text to speech conversion failed: " ++ e, by simp [assocFind],
     appendNonempty "Text to speech conversion failed: " e (by decide)⟩, hev⟩

/-- Video recognition under failed resolution. -/
theorem videoRec_resolveFail (env : Env) (ins : Inputs) (id : Value)
    (hid : assocFind ins "llm_config_id" = some id) (hfail : resolutionFails env id) :
    failsNoApiCall (VideoRecognitionNode.execute env ins) := by
  unfold VideoRecognitionNode.execute
  rcases h : videoRecRun env ins with ⟨r, evs⟩
  obtain ⟨⟨e, rfl⟩, hev⟩ := videoRecRun_resolveFail env ins id hid hfail r evs h
  exact ⟨by simp [assocFind],
    ⟨"Video recognition failed: " ++ e, by simp [assocFind],
     appendNonempty "Video recognition failed: " e (by decide)⟩, hev⟩

/-! ## Video frame collection -/

/-- An absent or empty frame slot is skipped by the collection loop. -/
theorem collectFrames_skip (ins : Inputs) (i : Nat) (rest : List Nat)
    (h : assocFind ins ("img" ++ toString i) = none ∨
         assocFind ins ("img" ++ toString i) = some (Value.str "")) :
    VideoRecognitionNode.collectFrames ins (i :: rest) =
      VideoRecognitionNode.collectFrames ins rest := by
  rcases h with h | h
  · simp [VideoRecognitionNode.collectFrames, h]
  · simp [VideoRecognitionNode.collectFrames, h, Value.truthy]
    rfl

/-- The collection loop keeps exactly the present, truthy frame values,
in index order. -/
theorem collectFrames_eq_filterMap (ins : Inputs) (l : List Nat) :
    VideoRecognitionNode.collectFrames ins l =
      l.filterMap (fun i => (assocFind ins ("img" ++ toString i)).bind
        (fun v => if v.truthy then some v else none)) := by
  induction l with
  | nil => rfl
  | cons i rest ih =>
      cases h : assocFind ins ("img" ++ toString i) with
      | none => simp [VideoRecognitionNode.collectFrames, h, ih]
      | some v =>
          by_cases ht : v.truthy <;>
            simp [VideoRecognitionNode.collectFrames, h, ht, ih]

/-- Any chat request the video body issues carries a single user message
whose content is the resolved frame URLs in a "video" block followed by
a text block with the prompt. -/
theorem videoRecRun_chatCall (env : Env) (ins : Inputs) (r : Except String Outcome)
    (evs : List Event) (req : ChatRequest)
    (h : videoRecRun env ins = (r, evs)) (hmem : Event.chatCall req ∈ evs) :
    ∃ prompt urls mdl, assocFind ins "prompt" = some prompt ∧
      VideoRecognitionNode.resolveFrameUrls env
        (VideoRecognitionNode._get_valid_image_paths ins) = .ok urls ∧
      req = { model := mdl,
              messages := [{ role := "user",
                             content := .blocks [.video urls, .text prompt] }] } := by
  unfold videoRecRun at h
  repeat' first | split at h | simp only [] at h
  all_goals injection h with h1 h2
  all_goals subst h2
  all_goals simp at hmem
  all_goals subst hmem
  all_goals exact ⟨_, _, _, (getItem_eq_ok _ _ _).mp (by assumption), by assumption, rfl⟩

/-- A successful image recognition body resolved its image reference. -/
theorem imageRecRun_ok_url (env : Env) (ins : Inputs) (out : Outcome) (evs : List Event)
    (h : imageRecRun env ins = (.ok out, evs)) :
    ∃ ip url, assocFind ins "image_path" = some ip ∧
      ImageRecognitionNode._get_image_url env ip = .ok url := by
  unfold imageRecRun at h
  repeat' first | split at h | simp only [] at h
  all_goals simp_all [getItem_eq_ok]

/-! ## Concrete environments for witnesses -/

/-- A valid model configuration used in concrete scenarios. -/
def cfgW : LLMConfig :=
  { llm_name := "gpt-test", typed_parameters := some { api_key := "k", base_url := "b" } }

/-- An environment where everything succeeds and the resolver knows the
configuration id `cfg1`. -/
def envW : Env :=
  { get_llm_config_by_id := fun v => if v = Value.str "cfg1" then some cfgW else none,
    openRead := fun _ => Except.ok [77, 97, 110],
    chatCreate := fun _ => Except.ok ["cherry blossoms fall"],
    imagesGenerate := fun _ => Except.ok ["http://img.example/i.png"],
    httpGetBytes := fun _ => Except.ok [1, 2],
    transcribe := fun _ => Except.ok "hello",
    speechCreate := fun _ => Except.ok [3, 4],
    mkdirs := fun _ => Except.ok (),
    writeFile := fun _ _ => Except.ok (),
    dirnameAbs := fun s => "/abs/" ++ s }

/-- Like `envW`, but every local file read fails (the file is absent). -/
def envNoFile : Env :=
  { envW with
    openRead := fun _ => Except.error "[Errno 2] No such file or directory: 'missing.mp3'" }

/-- Like `envW`, but the resolver knows no configuration id. -/
def envNoCfg : Env :=
  { envW with get_llm_config_by_id := fun _ => none }

/-- Like `envW`, but the resolved configuration has no typed parameters. -/
def envNoParams : Env :=
  { envW with
    get_llm_config_by_id := fun _ => some { llm_name := "gpt-test", typed_parameters := none } }

/-! ## Claims -/

/-- **C2.** For every node, if configuration resolution fails (the resolver
returns nothing for the supplied configuration id, or the resolved record
yields no typed parameters), `execute` returns `success: false` with a
non-empty `error_message`, and no remote API call is attempted. -/
theorem claim_C2 :
    (∀ env ins id, assocFind ins "llm_config_id" = some id → resolutionFails env id →
        failsNoApiCall (TextGenerationNode.execute env ins)) ∧
    (∀ env ins id, assocFind ins "llm_config_id" = some id → resolutionFails env id →
        failsNoApiCall (ImageGenerationNode.execute env ins)) ∧
    (∀ env ins id, assocFind ins "llm_config_id" = some id → resolutionFails env id →
        failsNoApiCall (ImageRecognitionNode.execute env ins)) ∧
    (∀ env ins id, assocFind ins "llm_config_id" = some id → resolutionFails env id →
        failsNoApiCall (SpeechToTextNode.execute env ins)) ∧
    (∀ env ins id, assocFind ins "llm_config_id" = some id → resolutionFails env id →
        failsNoApiCall (TextToSpeechNode.execute env ins)) ∧
    (∀ env ins id, assocFind ins "llm_config_id" = some id → resolutionFails env id →
        failsNoApiCall (VideoRecognitionNode.execute env ins)) :=
  ⟨textGen_resolveFail, imageGen_resolveFail, imageRec_resolveFail,
   speechToText_resolveFail, textToSpeech_resolveFail, videoRec_resolveFail⟩

/-- Witness for C2: a resolver that knows no id (text generation), and a
resolved record with no typed parameters (video recognition). -/
theorem claim_C2_witness :
    failsNoApiCall (TextGenerationNode.execute envNoCfg
      [("prompt", Value.str "p"), ("llm_config_id", Value.str "cfg1")]) ∧
    failsNoApiCall (VideoRecognitionNode.execute envNoParams
      [("img1", Value.str "a.png"), ("prompt", Value.str "p"),
       ("llm_config_id", Value.str "cfg1")]) :=
  ⟨claim_C2.1 envNoCfg _ (Value.str "cfg1") (by decide) (Or.inl rfl),
   claim_C2.2.2.2.2.2 envNoParams _ (Value.str "cfg1") (by decide)
     (Or.inr ⟨{ llm_name := "gpt-test", typed_parameters := none }, rfl, rfl⟩)⟩

/-- **C1.** For every node and every input mapping, `execute` never lets an
exception propagate to the host: every outcome is either a success, or a
failure with `success: false` and an `error_message` beginning with the
node's capability-specific message start; in particular the speech-to-text
node given an audio path that cannot be opened returns `success: false`
with an `error_message` containing "Speech to text conversion failed". -/
theorem claim_C1 :
    (∀ env ins, okOrFailsWith "Text generation failed: "
        (TextGenerationNode.execute env ins).1) ∧
    (∀ env ins, okOrFailsWith "Image generation failed: "
        (ImageGenerationNode.execute env ins).1) ∧
    (∀ env ins, okOrFailsWith "Image recognition failed: "
        (ImageRecognitionNode.execute env ins).1) ∧
    (∀ env ins, okOrFailsWith "Video recognition failed: "
        (VideoRecognitionNode.execute env ins).1) ∧
    (∀ env ins, okOrFailsWith "Speech to text conversion failed: "
        (SpeechToTextNode.execute env ins).1) ∧
    (∀ env ins, okOrFailsWith "Text to speech conversion failed: "
        (TextToSpeechNode.execute env ins).1) ∧
    (∀ env ins audio msg,
       assocFind ins "audio_file" = some audio →
       env.openRead audio = Except.error msg →
       assocFind (SpeechToTextNode.execute env ins).1 "success" = some (RVal.bool false) ∧
       ∃ m, assocFind (SpeechToTextNode.execute env ins).1 "error_message" = some (rstr m) ∧
         ∃ pre post, m = pre ++ "Speech to text conversion failed" ++ post) := by
  refine ⟨textGen_boundary, imageGen_boundary, imageRec_boundary, videoRec_boundary,
          speechToText_boundary, textToSpeech_boundary, ?_⟩
  intro env ins audio msg ha hr
  unfold SpeechToTextNode.execute
  rcases h : speechToTextRun env ins with ⟨r, evs⟩
  obtain ⟨e, rfl⟩ := speechRun_openFailsRaises env ins audio msg ha hr r evs h
  refine ⟨by simp [assocFind], "Speech to text conversion failed: " ++ e,
          by simp [assocFind], "", ": " ++ e, ?_⟩
  rw [← String.append_assoc]
  rfl

/-- Witness for C1: the speech-to-text node on a concrete environment
where the audio file `missing.mp3` does not exist. -/
theorem claim_C1_witness :
    assocFind (SpeechToTextNode.execute envNoFile
      [("audio_file", Value.str "missing.mp3"), ("llm_config_id", Value.str "cfg1")]).1
      "success" = some (RVal.bool false) ∧
    ∃ m, assocFind (SpeechToTextNode.execute envNoFile
      [("audio_file", Value.str "missing.mp3"), ("llm_config_id", Value.str "cfg1")]).1
      "error_message" = some (rstr m) ∧
      ∃ pre post, m = pre ++ "Speech to text conversion failed" ++ post :=
  claim_C1.2.2.2.2.2.2 envNoFile
    [("audio_file", Value.str "missing.mp3"), ("llm_config_id", Value.str "cfg1")]
    (Value.str "missing.mp3") "[Errno 2] No such file or directory: 'missing.mp3'"
    (by decide) rfl

/-- The example inputs of C3: `img1 = "a.png"`, `img2` empty,
`img3 = "b.png"`. -/
def insC3 : Inputs :=
  [("img1", Value.str "a.png"), ("img2", Value.str ""), ("img3", Value.str "b.png"),
   ("prompt", Value.str "p"), ("llm_config_id", Value.str "cfg1")]

/-- The chat request the video node issues on `envW` and `insC3`. -/
def reqC3 : ChatRequest :=
  { model := "gpt-test",
    messages := [{ role := "user",
                   content := .blocks
                     [.video ["data:image/jpeg;base64,TWFu", "data:image/jpeg;base64,TWFu"],
                      .text (Value.str "p")] }] }

/-- **C3.** For the video recognition node, the frame references placed in
the outbound request's "video" content block are exactly the non-empty
values of `img1..img8` in ascending positional order, each resolved by the
URL/base64 rule, followed by a text block carrying the prompt; in
particular `img1="a.png"`, `img2` empty, `img3="b.png"` yield the ordered
list `["a.png", "b.png"]`. -/
theorem claim_C3 :
    (∀ env ins req, Event.chatCall req ∈ (VideoRecognitionNode.execute env ins).2 →
       ∃ prompt urls mdl, assocFind ins "prompt" = some prompt ∧
         VideoRecognitionNode.resolveFrameUrls env
           (VideoRecognitionNode._get_valid_image_paths ins) = .ok urls ∧
         req = { model := mdl,
                 messages := [{ role := "user",
                                content := .blocks [.video urls, .text prompt] }] }) ∧
    (∀ ins, VideoRecognitionNode._get_valid_image_paths ins =
       [1, 2, 3, 4, 5, 6, 7, 8].filterMap (fun i =>
         (assocFind ins ("img" ++ toString i)).bind
           (fun v => if v.truthy then some v else none))) ∧
    (VideoRecognitionNode._get_valid_image_paths
       [("img1", Value.str "a.png"), ("img2", Value.str ""), ("img3", Value.str "b.png")] =
       [Value.str "a.png", Value.str "b.png"]) := by
  refine ⟨?_, ?_, by decide⟩
  · intro env ins req hmem
    unfold VideoRecognitionNode.execute at hmem
    rcases h : videoRecRun env ins with ⟨r, evs⟩
    rw [h] at hmem
    cases r with
    | ok out => exact videoRecRun_chatCall env ins _ evs req h (by simpa using hmem)
    | error e => exact videoRecRun_chatCall env ins _ evs req h (by simpa using hmem)
  · intro ins
    unfold VideoRecognitionNode._get_valid_image_paths
    exact collectFrames_eq_filterMap ins _

/-- Witness for C3: the single chat call the video node issues on a
concrete environment and the example inputs. -/
theorem claim_C3_witness :
    ∃ prompt urls mdl, assocFind insC3 "prompt" = some prompt ∧
      VideoRecognitionNode.resolveFrameUrls envW
        (VideoRecognitionNode._get_valid_image_paths insC3) = .ok urls ∧
      reqC3 = { model := mdl,
                messages := [{ role := "user",
                               content := .blocks [.video urls, .text prompt] }] } :=
  claim_C3.1 envW insC3 reqC3 (by decide)

/-- **C5.** For the video recognition node, if every frame input
`img1..img8` is empty or absent, `execute` returns a failure outcome, and
this failure occurs before any configuration resolution is performed: the
trace is empty, so in particular the resolver is never consulted. -/
theorem claim_C5 : ∀ env ins,
    (∀ i, 1 ≤ i → i ≤ 8 →
       assocFind ins ("img" ++ toString i) = none ∨
       assocFind ins ("img" ++ toString i) = some (Value.str "")) →
    VideoRecognitionNode.execute env ins =
      ([("success", RVal.bool false), ("description", rstr ""),
        ("error_message",
         rstr "Video recognition failed: At least one image path must be provided")],
       []) ∧
    (∀ id, Event.resolve id ∉ (VideoRecognitionNode.execute env ins).2) := by
  intro env ins hempty
  have hpaths : VideoRecognitionNode._get_valid_image_paths ins = [] := by
    unfold VideoRecognitionNode._get_valid_image_paths
    rw [collectFrames_skip ins 1 _ (hempty 1 (by decide) (by decide)),
        collectFrames_skip ins 2 _ (hempty 2 (by decide) (by decide)),
        collectFrames_skip ins 3 _ (hempty 3 (by decide) (by decide)),
        collectFrames_skip ins 4 _ (hempty 4 (by decide) (by decide)),
        collectFrames_skip ins 5 _ (hempty 5 (by decide) (by decide)),
        collectFrames_skip ins 6 _ (hempty 6 (by decide) (by decide)),
        collectFrames_skip ins 7 _ (hempty 7 (by decide) (by decide)),
        collectFrames_skip ins 8 _ (hempty 8 (by decide) (by decide))]
    rfl
  have hex : VideoRecognitionNode.execute env ins =
      ([("success", RVal.bool false), ("description", rstr ""),
        ("error_message",
         rstr "Video recognition failed: At least one image path must be provided")],
       []) := by
    unfold VideoRecognitionNode.execute videoRecRun
    simp [hpaths]
  exact ⟨hex, by simp [hex]⟩

/-- Witness for C5: the video node on the empty input mapping. -/
theorem claim_C5_witness :
    VideoRecognitionNode.execute envW [] =
      ([("success", RVal.bool false), ("description", rstr ""),
        ("error_message",
         rstr "Video recognition failed: At least one image path must be provided")],
       []) ∧
    (∀ id, Event.resolve id ∉ (VideoRecognitionNode.execute envW []).2) :=
  claim_C5 envW [] (fun _ _ _ => Or.inl rfl)

/-- **C4.** For both recognition nodes, an image reference starting with
`http://` or `https://` is passed into the request unmodified, and any
other reference is read from the local filesystem in full and transformed
to `"data:image/jpeg;base64,"` followed by the base64 encoding of the
file's bytes, regardless of the file's actual format. -/
theorem claim_C4 : ∀ env (s : String),
    ((strStartsWith s "http://" = true ∨ strStartsWith s "https://" = true) →
       ImageRecognitionNode._get_image_url env (.str s) = .ok s ∧
       VideoRecognitionNode._get_image_url env (.str s) = .ok s) ∧
    ((strStartsWith s "http://" = false ∧ strStartsWith s "https://" = false) →
       ∀ bs, env.openRead (.str s) = .ok bs →
         ImageRecognitionNode._get_image_url env (.str s) =
           .ok ("data:image/jpeg;base64," ++ base64Encode bs) ∧
         VideoRecognitionNode._get_image_url env (.str s) =
           .ok ("data:image/jpeg;base64," ++ base64Encode bs)) := by
  intro env s
  constructor
  · intro h
    have hh : isHttpUrl s = true := by
      rcases h with h | h <;> simp [isHttpUrl, h]
    exact ⟨by simp [ImageRecognitionNode._get_image_url, asPyString, hh],
           by simp [VideoRecognitionNode._get_image_url, asPyString, hh]⟩
  · rintro ⟨h1, h2⟩ bs hbs
    have hh : isHttpUrl s = false := by simp [isHttpUrl, h1, h2]
    exact ⟨by simp [ImageRecognitionNode._get_image_url,
                    ImageRecognitionNode._encode_image_to_base64, asPyString, hh, hbs],
           by simp [VideoRecognitionNode._get_image_url,
                    VideoRecognitionNode._encode_image_to_base64, asPyString, hh, hbs]⟩

/-- Witness for C4: a remote URL is passed through; a local path on a
concrete environment becomes the base64 data URL of the file bytes. -/
theorem claim_C4_witness :
    (ImageRecognitionNode._get_image_url envW (.str "http://x/y.png") = .ok "http://x/y.png" ∧
     VideoRecognitionNode._get_image_url envW (.str "http://x/y.png") = .ok "http://x/y.png") ∧
    (ImageRecognitionNode._get_image_url envW (.str "local.png") =
       .ok ("data:image/jpeg;base64," ++ base64Encode [77, 97, 110]) ∧
     VideoRecognitionNode._get_image_url envW (.str "local.png") =
       .ok ("data:image/jpeg;base64," ++ base64Encode [77, 97, 110])) :=
  ⟨(claim_C4 envW "http://x/y.png").1 (Or.inl (by decide)),
   (claim_C4 envW "local.png").2 (by decide) [77, 97, 110] rfl⟩

/-- **C10.** The remote-URL test is an exact, case-sensitive match: the
reference `"HTTP://host/img.png"` is not passed through but treated as a
local file path — it resolves to a base64 data URL when the file can be
read (a result different from the reference itself), the read error
propagates otherwise, and the image recognition node then returns a
failure outcome. -/
theorem claim_C10 :
    (strStartsWith "HTTP://host/img.png" "http://" = false ∧
     strStartsWith "HTTP://host/img.png" "https://" = false) ∧
    (∀ env bs, env.openRead (.str "HTTP://host/img.png") = .ok bs →
       ImageRecognitionNode._get_image_url env (.str "HTTP://host/img.png") =
         .ok ("data:image/jpeg;base64," ++ base64Encode bs) ∧
       VideoRecognitionNode._get_image_url env (.str "HTTP://host/img.png") =
         .ok ("data:image/jpeg;base64," ++ base64Encode bs) ∧
       ("data:image/jpeg;base64," ++ base64Encode bs) ≠ "HTTP://host/img.png") ∧
    (∀ env e, env.openRead (.str "HTTP://host/img.png") = .error e →
       ImageRecognitionNode._get_image_url env (.str "HTTP://host/img.png") = .error e ∧
       VideoRecognitionNode._get_image_url env (.str "HTTP://host/img.png") = .error e) ∧
    (∀ env ins e, assocFind ins "image_path" = some (.str "HTTP://host/img.png") →
       env.openRead (.str "HTTP://host/img.png") = .error e →
       assocFind (ImageRecognitionNode.execute env ins).1 "success" =
         some (RVal.bool false)) := by
  have hcase : isHttpUrl "HTTP://host/img.png" = false := by decide
  refine ⟨by decide, ?_, ?_, ?_⟩
  · intro env bs hbs
    refine ⟨by simp [ImageRecognitionNode._get_image_url,
                     ImageRecognitionNode._encode_image_to_base64, asPyString, hcase, hbs],
            by simp [VideoRecognitionNode._get_image_url,
                     VideoRecognitionNode._encode_image_to_base64, asPyString, hcase, hbs],
            ?_⟩
    intro h
    have h2 := congrArg String.length h
    rw [String.length_append] at h2
    have h3 : ("data:image/jpeg;base64,").length = 23 := rfl
    have h4 : ("HTTP://host/img.png").length = 19 := rfl
    omega
  · intro env e he
    exact ⟨by simp [ImageRecognitionNode._get_image_url,
                    ImageRecognitionNode._encode_image_to_base64, asPyString, hcase, he],
           by simp [VideoRecognitionNode._get_image_url,
                    VideoRecognitionNode._encode_image_to_base64, asPyString, hcase, he]⟩
  · intro env ins e hip hread
    unfold ImageRecognitionNode.execute
    rcases h : imageRecRun env ins with ⟨r, evs⟩
    cases r with
    | error e' => simp [assocFind]
    | ok out =>
        exfalso
        obtain ⟨ip, url, hip', hurl⟩ := imageRecRun_ok_url env ins out evs h
        rw [hip] at hip'
        injection hip' with hip'
        subst hip'
        unfold ImageRecognitionNode._get_image_url
          ImageRecognitionNode._encode_image_to_base64 at hurl
        simp [asPyString, hcase, hread] at hurl

/-- Witness for C10: the uppercase-scheme reference on environments where
the file exists and where it does not. -/
theorem claim_C10_witness :
    (ImageRecognitionNode._get_image_url envW (.str "HTTP://host/img.png") =
       .ok ("data:image/jpeg;base64," ++ base64Encode [77, 97, 110]) ∧
     VideoRecognitionNode._get_image_url envW (.str "HTTP://host/img.png") =
       .ok ("data:image/jpeg;base64," ++ base64Encode [77, 97, 110]) ∧
     ("data:image/jpeg;base64," ++ base64Encode [77, 97, 110]) ≠ "HTTP://host/img.png") ∧
    assocFind (ImageRecognitionNode.execute envNoFile
      [("image_path", Value.str "HTTP://host/img.png"), ("prompt", Value.str "w"),
       ("llm_config_id", Value.str "cfg1")]).1 "success" = some (RVal.bool false) :=
  ⟨claim_C10.2.1 envW [77, 97, 110] rfl,
   claim_C10.2.2.2 envNoFile
     [("image_path", Value.str "HTTP://host/img.png"), ("prompt", Value.str "w"),
      ("llm_config_id", Value.str "cfg1")]
     "[Errno 2] No such file or directory: 'missing.mp3'" (by decide) rfl⟩

/-- **C6.** Text generation end-to-end: inputs
`{prompt: "Write a haiku", llm_config_id: "cfg1"}`, a resolver returning a
valid configuration, and a stub whose first completion choice is
"cherry blossoms fall" yield `{success: true, generated_text:
"cherry blossoms fall"}`; the single request carries exactly two messages,
the default system prompt followed by the user prompt, and `generated_text`
is the first completion choice. -/
theorem claim_C6 : ∀ env cfg p tail,
    env.get_llm_config_by_id (Value.str "cfg1") = some cfg →
    cfg.typed_parameters = some p →
    (∀ req, env.chatCreate req = Except.ok ("cherry blossoms fall" :: tail)) →
    (TextGenerationNode.execute env
        [("prompt", Value.str "Write a haiku"), ("llm_config_id", Value.str "cfg1")]).1 =
      [("success", RVal.bool true), ("generated_text", rstr "cherry blossoms fall")] ∧
    ∃ req,
      (TextGenerationNode.execute env
          [("prompt", Value.str "Write a haiku"), ("llm_config_id", Value.str "cfg1")]).2 =
        [Event.resolve (Value.str "cfg1"), Event.chatCall req] ∧
      req.messages =
        [{ role := "system",
           content := .val (Value.str "You are a helpful and creative assistant.") },
         { role := "user", content := .val (Value.str "Write a haiku") }] ∧
      req.model = cfg.llm_name := by
  intro env cfg p tail hcfg hp hstub
  constructor
  · unfold TextGenerationNode.execute textGenRun
    simp [getItem, assocFind, getDefault, hcfg, hp, hstub]
  · refine ⟨{ model := cfg.llm_name,
              messages :=
                [{ role := "system",
                   content := .val (Value.str "You are a helpful and creative assistant.") },
                 { role := "user", content := .val (Value.str "Write a haiku") }],
              max_tokens := some (Value.int 1000),
              temperature := some (Value.float (7 / 10)) }, ?_, rfl, rfl⟩
    unfold TextGenerationNode.execute textGenRun
    simp [getItem, assocFind, getDefault, hcfg, hp, hstub]

/-- Witness for C6: the scenario on the concrete environment `envW`. -/
theorem claim_C6_witness :
    (TextGenerationNode.execute envW
        [("prompt", Value.str "Write a haiku"), ("llm_config_id", Value.str "cfg1")]).1 =
      [("success", RVal.bool true), ("generated_text", rstr "cherry blossoms fall")] ∧
    ∃ req,
      (TextGenerationNode.execute envW
          [("prompt", Value.str "Write a haiku"), ("llm_config_id", Value.str "cfg1")]).2 =
        [Event.resolve (Value.str "cfg1"), Event.chatCall req] ∧
      req.messages =
        [{ role := "system",
           content := .val (Value.str "You are a helpful and creative assistant.") },
         { role := "user", content := .val (Value.str "Write a haiku") }] ∧
      req.model = cfgW.llm_name :=
  claim_C6 envW cfgW { api_key := "k", base_url := "b" } [] (by decide) rfl (fun _ => rfl)

/-- **C7.** For the image generation and text-to-speech nodes, on the
success path the directory of the caller-supplied output path is created
before the file write occurs (the trace contains the directory creation
strictly before the write), and the path returned under `image_path`
(respectively `audio_path`) is exactly the caller-supplied `output_file`
string. -/
theorem claim_C7 : ∀ env ins out evs,
    (ImageGenerationNode.execute env ins = (out, evs) →
       assocFind out "success" = some (RVal.bool true) →
       ∃ s, assocFind ins "output_file" = some (Value.str s) ∧
         assocFind out "image_path" = some (rstr s) ∧
         ∃ l1 l2 l3,
           evs = l1 ++ Event.mkdirs (env.dirnameAbs s) :: (l2 ++ Event.write s :: l3)) ∧
    (TextToSpeechNode.execute env ins = (out, evs) →
       assocFind out "success" = some (RVal.bool true) →
       ∃ s, assocFind ins "output_file" = some (Value.str s) ∧
         assocFind out "audio_path" = some (rstr s) ∧
         ∃ l1 l2 l3,
           evs = l1 ++ Event.mkdirs (env.dirnameAbs s) :: (l2 ++ Event.write s :: l3)) := by
  intro env ins out evs
  constructor
  · intro hex hsucc
    unfold ImageGenerationNode.execute at hex
    rcases h : imageGenRun env ins with ⟨r, evs'⟩
    rw [h] at hex
    cases r with
    | error e =>
        exfalso
        injection hex with h1 h2
        subst h1
        simp [assocFind] at hsucc
    | ok o =>
        injection hex with h1 h2
        subst h1
        subst h2
        obtain ⟨id, s, req, url, hof, rfl, rfl⟩ := imageGenRun_ok env ins o evs' h
        exact ⟨s, hof, by simp [assocFind],
               [Event.resolve id], [Event.imagesCall req, Event.httpGet url], [], rfl⟩
  · intro hex hsucc
    unfold TextToSpeechNode.execute at hex
    rcases h : textToSpeechRun env ins with ⟨r, evs'⟩
    rw [h] at hex
    cases r with
    | error e =>
        exfalso
        injection hex with h1 h2
        subst h1
        simp [assocFind] at hsucc
    | ok o =>
        injection hex with h1 h2
        subst h1
        subst h2
        obtain ⟨id, s, req, hof, rfl, rfl⟩ := textToSpeechRun_ok env ins o evs' h
        exact ⟨s, hof, by simp [assocFind],
               [Event.resolve id], [Event.speechCall req], [], rfl⟩

/-- Witness for C7: concrete success runs of both nodes on `envW`. -/
theorem claim_C7_witness :
    (∃ s, assocFind [("prompt", Value.str "cat"), ("size", Value.str "1024x1024"),
          ("output_file", Value.str "out/i.png"), ("llm_config_id", Value.str "cfg1")]
          "output_file" = some (Value.str s) ∧
       assocFind [("success", RVal.bool true), ("image_path", rstr "out/i.png")]
          "image_path" = some (rstr s) ∧
       ∃ l1 l2 l3,
         [Event.resolve (Value.str "cfg1"), Event.mkdirs "/abs/out/i.png",
          Event.imagesCall { model := "gpt-test", prompt := Value.str "cat",
                             size := Value.str "1024x1024", quality := Value.str "standard",
                             style := Value.str "vivid", n := 1 },
          Event.httpGet "http://img.example/i.png", Event.write "out/i.png"] =
           l1 ++ Event.mkdirs (envW.dirnameAbs s) :: (l2 ++ Event.write s :: l3)) ∧
    (∃ s, assocFind [("text", Value.str "hi"), ("voice", Value.str "alloy"),
          ("output_file", Value.str "o.mp3"), ("llm_config_id", Value.str "cfg1")]
          "output_file" = some (Value.str s) ∧
       assocFind [("success", RVal.bool true), ("audio_path", rstr "o.mp3")]
          "audio_path" = some (rstr s) ∧
       ∃ l1 l2 l3,
         [Event.resolve (Value.str "cfg1"), Event.mkdirs "/abs/o.mp3",
          Event.speechCall { model := "gpt-test", voice := Value.str "alloy",
                             input := Value.str "hi" },
          Event.write "o.mp3"] =
           l1 ++ Event.mkdirs (envW.dirnameAbs s) :: (l2 ++ Event.write s :: l3)) :=
  ⟨(claim_C7 envW
      [("prompt", Value.str "cat"), ("size", Value.str "1024x1024"),
       ("output_file", Value.str "out/i.png"), ("llm_config_id", Value.str "cfg1")]
      [("success", RVal.bool true), ("image_path", rstr "out/i.png")]
      [Event.resolve (Value.str "cfg1"), Event.mkdirs "/abs/out/i.png",
       Event.imagesCall { model := "gpt-test", prompt := Value.str "cat",
                          size := Value.str "1024x1024", quality := Value.str "standard",
                          style := Value.str "vivid", n := 1 },
       Event.httpGet "http://img.example/i.png", Event.write "out/i.png"]).1
     (by decide) (by decide),
   (claim_C7 envW
      [("text", Value.str "hi"), ("voice", Value.str "alloy"),
       ("output_file", Value.str "o.mp3"), ("llm_config_id", Value.str "cfg1")]
      [("success", RVal.bool true), ("audio_path", rstr "o.mp3")]
      [Event.resolve (Value.str "cfg1"), Event.mkdirs "/abs/o.mp3",
       Event.speechCall { model := "gpt-test", voice := Value.str "alloy",
                          input := Value.str "hi" },
       Event.write "o.mp3"]).2
     (by decide) (by decide)⟩

/-- **C8.** Every outcome of the video recognition node carries explicit
`success` and `error_message` fields (and a `description`): on success
`error_message` is the empty string and `description` is the first
completion choice of the issued chat call; on failure `success` is false
and `error_message` is non-empty. -/
theorem claim_C8 : ∀ env ins, ∃ b m d,
    assocFind (VideoRecognitionNode.execute env ins).1 "success" = some (RVal.bool b) ∧
    assocFind (VideoRecognitionNode.execute env ins).1 "error_message" = some (rstr m) ∧
    assocFind (VideoRecognitionNode.execute env ins).1 "description" = some (rstr d) ∧
    (b = true → m = "" ∧ ∃ req tl,
       Event.chatCall req ∈ (VideoRecognitionNode.execute env ins).2 ∧
       env.chatCreate req = .ok (d :: tl)) ∧
    (b = false → m ≠ "") := by
  intro env ins
  unfold VideoRecognitionNode.execute
  rcases h : videoRecRun env ins with ⟨r, evs⟩
  cases r with
  | ok out =>
      obtain ⟨t, tl, req, id, rfl, rfl, hc⟩ := videoRecRun_ok env ins out evs h
      exact ⟨true, "", t, by simp [assocFind], by simp [assocFind], by simp [assocFind],
             fun _ => ⟨rfl, req, tl, by simp, hc⟩, fun hb => Bool.noConfusion hb⟩
  | error e =>
      exact ⟨false, "Video recognition failed: " ++ e, "", by simp [assocFind],
             by simp [assocFind], by simp [assocFind], fun hb => Bool.noConfusion hb,
             fun _ => appendNonempty "Video recognition failed: " e (by decide)⟩

/-- Witness for C8: the video node on `envW` and the example inputs. -/
theorem claim_C8_witness : ∃ b m d,
    assocFind (VideoRecognitionNode.execute envW insC3).1 "success" = some (RVal.bool b) ∧
    assocFind (VideoRecognitionNode.execute envW insC3).1 "error_message" = some (rstr m) ∧
    assocFind (VideoRecognitionNode.execute envW insC3).1 "description" = some (rstr d) ∧
    (b = true → m = "" ∧ ∃ req tl,
       Event.chatCall req ∈ (VideoRecognitionNode.execute envW insC3).2 ∧
       envW.chatCreate req = .ok (d :: tl)) ∧
    (b = false → m ≠ "") :=
  claim_C8 envW insC3

/-- **C9 (amended).** The image recognition node's `INPUTS` schema declares
the default `"What is in this image?"` for the analysis prompt, but
`execute` itself never applies it: when the input mapping omits `prompt`
(while supplying `image_path`), `execute` raises `KeyError('prompt')`
internally and returns the failure outcome
`{success: false, error_message: "Image recognition failed: 'prompt'"}`
without consulting the resolver or issuing any request. -/
theorem claim_C9 : ∀ env ins v,
    assocFind ins "image_path" = some v →
    assocFind ins "prompt" = none →
    ImageRecognitionNode.execute env ins =
      ([("success", RVal.bool false),
        ("error_message", rstr "Image recognition failed: 'prompt'")], []) := by
  intro env ins v hip hp
  unfold ImageRecognitionNode.execute imageRecRun
  simp [getItem, hip, hp]

/-- Witness for C9 (amended): a concrete mapping without `prompt`. -/
theorem claim_C9_witness :
    ImageRecognitionNode.execute envW
      [("image_path", Value.str "pic.png"), ("llm_config_id", Value.str "cfg1")] =
      ([("success", RVal.bool false),
        ("error_message", rstr "Image recognition failed: 'prompt'")], []) :=
  claim_C9 envW
    [("image_path", Value.str "pic.png"), ("llm_config_id", Value.str "cfg1")]
    (Value.str "pic.png") (by decide) (by decide)

/-- Counterexample to C9 as stated: on a fully valid environment, the
image recognition node given a mapping that omits the analysis prompt does
not default it to "What is in this image?" and proceed — it returns a
failure outcome and issues no request at all (the trace is empty). -/
theorem claim_C9_counterexample :
    ImageRecognitionNode.execute envW
      [("image_path", Value.str "photo.png"), ("llm_config_id", Value.str "cfg1")] =
      ([("success", RVal.bool false),
        ("error_message", rstr "Image recognition failed: 'prompt'")], []) := by
  decide

end Autotask
